import Mathlib

/-!
# Verification of the cart-to-order checkout core of the E-Commerce-svrl repository

Shallow embedding of the checkout-related code:
* `models.py`   — `Product.get_discounted_price`, `CartItem.get_subtotal`,
                  the `Product`/`CartItem`/`Order`/`OrderItem` columns used by checkout;
* `blueprints/checkout.py` — the `checkout` view (pricing, order creation,
                  stock decrement, cart clearing, rollback on exception);
* `blueprints/cart.py` — the `add_to_cart` view (the only stock check in the code).

Monetary values (Python floats in the source) are modelled in two layers.
The structural layer models amounts as exact rationals `ℚ`, with Python's
`round(x, 2)` as rounding `x·100` to the nearest integer — an exact-arithmetic
idealization of binary64 (no claim settled in this layer exercises a rounding
tie or depends on float drift, and the concrete counterexamples for C3 and C9
were checked to behave identically in real binary64).  Where a claim's truth
DOES depend on binary64 rounding drift — the stored-total identity of C5 —
a bit-faithful binary64 model is used instead: `F` represents finite
nonnegative doubles as dyadics `m·2^e`, `fadd`/`fmul` round the exact result
to nearest/ties-to-even, and `pyRound2` is CPython's correctly-rounded
`round(float, 2)`.  Database tables are lists of rows; the ambient
SQLAlchemy session's rollback-on-exception is modelled by returning the
pre-transaction state on every failing path, which is the observable behaviour
of `db.session.rollback()`.
-/

namespace ECommerce

/-- Python `round(x, 2)`: round to 2 decimal places.
`round` on `ℚ` is round-to-nearest (`⌊x + 1/2⌋`). -/
def round2 (q : ℚ) : ℚ := (round (q * 100) : ℤ) / 100

/-- `models.py` → `Product` (the read view used by cart/checkout: id, pricing,
discount, stock, active flag).  `stock_quantity` is an `Int` because nothing in
`checkout` stops it from going negative. -/
structure Product where
  id : Nat
  price : ℚ
  discount_percentage : ℚ
  stock_quantity : Int
  is_active : Bool
deriving DecidableEq, Repr

/-- `models.py` → `Product.is_in_stock`: `self.stock_quantity > 0`. -/
def Product.is_in_stock (p : Product) : Bool := p.stock_quantity > 0

/-- `models.py` → `Product.get_discounted_price`:
`round(price * (1 - discount_percentage/100), 2)` when `discount_percentage > 0`,
otherwise `price` unchanged (NOT rounded). -/
def Product.get_discounted_price (p : Product) : ℚ :=
  if p.discount_percentage > 0 then
    round2 (p.price * (1 - p.discount_percentage / 100))
  else p.price

/-- `models.py` → `CartItem` (user_id, product_id, quantity). -/
structure CartLine where
  user_id : Nat
  product_id : Nat
  quantity : Int
deriving DecidableEq, Repr

/-- `models.py` → `CartItem.get_subtotal`:
`round(self.product.get_discounted_price() * self.quantity, 2)`,
given the resolved product of the line. -/
def CartLine.get_subtotal (p : Product) (l : CartLine) : ℚ :=
  round2 (p.get_discounted_price * l.quantity)

/-- `models.py` → `Order` (the columns checkout writes and the claims read).
The shipping-address snapshot and notes columns carry no claim and are omitted. -/
structure Order where
  order_number : String
  user_id : Nat
  status : String
  payment_method : String
  payment_status : String
  payment_id : String
  subtotal : ℚ
  tax_amount : ℚ
  shipping_cost : ℚ
  discount_amount : ℚ
  total_amount : ℚ
deriving DecidableEq, Repr

/-- `models.py` → `OrderItem` (snapshot of a purchased line; the textual
snapshot columns `product_name`/`product_size`/`product_sku` carry no claim
and are omitted).  Items are keyed by the parent's `order_number`, which is
unique, in place of the surrogate `order_id`. -/
structure OrderItem where
  order_number : String
  product_id : Nat
  quantity : Int
  unit_price : ℚ
  subtotal : ℚ
deriving DecidableEq, Repr

/-- The database state touched by cart/checkout. -/
structure DB where
  products : List Product
  cart_items : List CartLine
  orders : List Order
  order_items : List OrderItem
deriving DecidableEq, Repr

/-- `Product.query.get(product_id)` / the `cart_item.product` relationship. -/
def findProduct (db : DB) (pid : Nat) : Option Product :=
  db.products.find? (fun p => p.id = pid)

example :
    (Product.mk 1 100 10 5 true).get_discounted_price = 90 := by
  norm_num [Product.get_discounted_price, round2, round_eq]

example :
    (Product.mk 1 (1543/125) 0 5 true).get_discounted_price = 1543/125 := by
  norm_num [Product.get_discounted_price, round2, round_eq]

/-! ## Order-number and payment-id generation (`checkout.py` line 48 and 57)

`order_number = f"ORD-{datetime.now().strftime('%Y%m%d')}-{uuid.uuid4().hex[:8].upper()}"`.
`uuid4().hex` is a string of 32 lowercase hexadecimal digits; we model the
random hex stream as a `List (Fin 16)` of nibbles supplied as a parameter
(the randomness oracle), and `strftime('%Y%m%d')` as zero-padded decimal
fields of the supplied current date. -/

/-- Decimal digit character: `Char.ofNat (48 + n)` for `n < 10`. -/
def digitChar (n : Nat) : Char := Char.ofNat (48 + n)

/-- `strftime('%Y')`: the year zero-padded to 4 digits (faithful for years ≤ 9999). -/
def pad4 (n : Nat) : List Char :=
  [digitChar (n / 1000 % 10), digitChar (n / 100 % 10),
   digitChar (n / 10 % 10), digitChar (n % 10)]

/-- `strftime('%m')` / `strftime('%d')`: zero-padded to 2 digits. -/
def pad2 (n : Nat) : List Char := [digitChar (n / 10 % 10), digitChar (n % 10)]

/-- One nibble of `uuid4().hex`: lowercase hexadecimal digit. -/
def hexChar (i : Fin 16) : Char :=
  Char.ofNat (if i.val < 10 then 48 + i.val else 87 + i.val)

/-- `checkout.py` line 48: the candidate order number
`"ORD-" + %Y%m%d + "-" + uuid4().hex[:8].upper()`. -/
def genOrderNumber (y m d : Nat) (uuidHex : List (Fin 16)) : String :=
  String.mk (['O', 'R', 'D', '-'] ++ pad4 y ++ pad2 m ++ pad2 d ++ ['-']
    ++ (uuidHex.take 8).map (fun i => (hexChar i).toUpper))

/-- `checkout.py` line 57: `payment_id = f"pay_{uuid.uuid4().hex[:16]}"`. -/
def genPaymentId (payHex : List (Fin 16)) : String :=
  String.mk (['p', 'a', 'y', '_'] ++ (payHex.take 16).map hexChar)

/-! ## Pricing (`checkout.py` lines 27–31) -/

/-- `checkout.py` line 27: `subtotal = sum(item.get_subtotal() for item in cart_items)`,
over the cart lines paired with their resolved products. -/
def cartSubtotal (lines : List (Product × CartLine)) : ℚ :=
  (lines.map (fun pl => pl.2.get_subtotal pl.1)).sum

/-- `checkout.py` lines 28–29: `tax_amount = round(subtotal * 0.05, 2)`. -/
def taxAmount (subtotal : ℚ) : ℚ := round2 (subtotal * (5 / 100))

/-- `checkout.py` line 30: `shipping_cost = 0 if subtotal > 500 else 50`. -/
def shippingCost (subtotal : ℚ) : ℚ := if subtotal > 500 then 0 else 50

/-- `checkout.py` line 31: `total_amount = subtotal + tax_amount + shipping_cost`. -/
def totalAmount (subtotal : ℚ) : ℚ :=
  subtotal + taxAmount subtotal + shippingCost subtotal

/-! ## The checkout transaction (`checkout.py` lines 17–103) -/

/-- Possible outcomes of one POST to the checkout view. -/
inductive CheckoutOutcome where
  /-- Line 22–24: empty cart → flash warning, redirect to the product list. -/
  | emptyCartRedirect
  /-- Line 105: `form.validate_on_submit()` false (GET or invalid form) → page
  rendered, nothing written. -/
  | renderPage
  /-- A cart line whose product row is missing: `item.get_subtotal()` on line 27
  dereferences `self.product` (None) and raises outside the try block —
  an unhandled 500 before any session write. -/
  | internalError
  /-- Lines 100–103: any exception inside the try block → `db.session.rollback()`,
  flash 'An error occurred while processing your order. Please try again.'. -/
  | genericError
  /-- Lines 95–98: committed; redirect to the confirmation page. -/
  | success (order_number : String)
deriving DecidableEq, Repr

/-- `checkout.py` line 20: `CartItem.query.filter_by(user_id=current_user.id).all()`. -/
def userLines (db : DB) (uid : Nat) : List CartLine :=
  db.cart_items.filter (fun l => l.user_id = uid)

/-- Resolve each cart line's `cart_item.product` relationship; `none` if any
product row is missing. -/
def resolveLines (db : DB) : List CartLine → Option (List (Product × CartLine))
  | [] => some []
  | l :: ls =>
    match findProduct db l.product_id, resolveLines db ls with
    | some p, some rest => some ((p, l) :: rest)
    | _, _ => none

/-- The user's cart lines paired with their products (defaulting to `[]`,
which only happens when some product row is missing). -/
def resolvedLines (db : DB) (uid : Nat) : List (Product × CartLine) :=
  (resolveLines db (userLines db uid)).getD []

/-- Total quantity the given cart lines request for product `pid`
(the per-line loop on line 89 decrements a product once per line that names it). -/
def cartQty (cart : List CartLine) (pid : Nat) : Int :=
  ((cart.filter (fun l => l.product_id = pid)).map (fun l => l.quantity)).sum

/-- `checkout.py` lines 51–70: the `Order(...)` constructor call.
`status='confirmed'`, `payment_status='paid'` are passed explicitly;
`discount_amount` is NOT passed, so the column default `0` applies
(`models.py` line 308). -/
def mkOrder (number : String) (uid : Nat) (payId : String) (subtotal tax ship : ℚ) :
    Order where
  order_number := number
  user_id := uid
  status := "confirmed"
  payment_method := "razorpay_mock"
  payment_status := "paid"
  payment_id := payId
  subtotal := subtotal
  tax_amount := tax
  shipping_cost := ship
  discount_amount := 0
  total_amount := subtotal + tax + ship

/-- `checkout.py` lines 76–85: the `OrderItem(...)` snapshot for one line. -/
def mkOrderItem (number : String) (p : Product) (l : CartLine) : OrderItem where
  order_number := number
  product_id := l.product_id
  quantity := l.quantity
  unit_price := p.get_discounted_price
  subtotal := l.get_subtotal p

/-- `blueprints/checkout.py` lines 17–103: one POST of the checkout view.

Parameters beyond the database state model the request context:
`formValid` is `form.validate_on_submit()`; `y m d` the current date;
`uuidHex`/`payHex` the random nibble streams behind the two `uuid.uuid4()` calls;
`infraFail` injects an infrastructure exception inside the try block
(any such exception, and equally a unique-constraint collision of the candidate
order number detected at flush/commit, lands in the `except` handler:
`db.session.rollback()` makes the pre-transaction state the observable result). -/
def checkout (db : DB) (uid : Nat) (formValid : Bool) (y m d : Nat)
    (uuidHex payHex : List (Fin 16)) (infraFail : Bool) : DB × CheckoutOutcome :=
  let cart := userLines db uid
  if cart.isEmpty then (db, .emptyCartRedirect)
  else
    match resolveLines db cart with
    | none => (db, .internalError)
    | some lines =>
      let subtotal := cartSubtotal lines
      if formValid then
        let number := genOrderNumber y m d uuidHex
        if infraFail || db.orders.any (fun o => o.order_number = number) then
          (db, .genericError)
        else
          ({ products := db.products.map (fun p =>
               { p with stock_quantity := p.stock_quantity - cartQty cart p.id }),
             cart_items := db.cart_items.filter (fun l => ¬ l.user_id = uid),
             orders := db.orders ++
               [mkOrder number uid (genPaymentId payHex) subtotal
                  (taxAmount subtotal) (shippingCost subtotal)],
             order_items := db.order_items ++
               lines.map (fun pl => mkOrderItem number pl.1 pl.2) },
           .success number)
      else (db, .renderPage)

/-! ## Adding to the cart (`blueprints/cart.py` lines 28–79) -/

/-- Possible outcomes of one POST to `add_to_cart`. -/
inductive AddOutcome where
  /-- `get_or_404`: no such product. -/
  | notFound
  /-- Lines 32–34: inactive or out of stock → 'Product is currently unavailable.'. -/
  | productUnavailable
  /-- Lines 39–41: `quantity < 1` → 'Invalid quantity.'. -/
  | invalidQuantity
  /-- Lines 44–46: `quantity > product.stock_quantity` →
  'Only ... items available in stock.'. -/
  | insufficientStock
  /-- Lines 57–60: existing line and `quantity + existing > stock` →
  'Cannot add more. ...'. -/
  | cannotAddMore
  /-- Line 61: existing line's quantity increased. -/
  | updated
  /-- Lines 65–70: new cart line inserted. -/
  | added
deriving DecidableEq, Repr

/-- `blueprints/cart.py` lines 28–79: `add_to_cart(product_id)` for user `uid`. -/
def add_to_cart (db : DB) (uid pid : Nat) (quantity : Int) : DB × AddOutcome :=
  match findProduct db pid with
  | none => (db, .notFound)
  | some product =>
    if ¬ (product.is_active && product.is_in_stock) then (db, .productUnavailable)
    else if quantity < 1 then (db, .invalidQuantity)
    else if quantity > product.stock_quantity then (db, .insufficientStock)
    else
      match db.cart_items.find? (fun l => l.user_id = uid && l.product_id = pid) with
      | some cart_item =>
        if cart_item.quantity + quantity > product.stock_quantity then
          (db, .cannotAddMore)
        else
          ({ db with cart_items := db.cart_items.map (fun l =>
              if l.user_id = uid && l.product_id = pid then
                { l with quantity := cart_item.quantity + quantity }
              else l) }, .updated)
      | none =>
        ({ db with cart_items := db.cart_items ++ [⟨uid, pid, quantity⟩] }, .added)

/-! ## Helper lemmas: hundredths, branch equations, success inversion -/

/-- A rational that is a whole number of hundredths (a whole number of paise):
every amount the checkout stores is one. -/
def IsCent (q : ℚ) : Prop := ∃ n : ℤ, q = n / 100

theorem isCent_round2 (q : ℚ) : IsCent (round2 q) := ⟨round (q * 100), rfl⟩

theorem IsCent.add {a b : ℚ} (ha : IsCent a) (hb : IsCent b) : IsCent (a + b) := by
  obtain ⟨n, rfl⟩ := ha
  obtain ⟨m, rfl⟩ := hb
  exact ⟨n + m, by push_cast; ring⟩

theorem isCent_zero : IsCent 0 := ⟨0, by norm_num⟩

theorem isCent_cartSubtotal (lines : List (Product × CartLine)) :
    IsCent (cartSubtotal lines) := by
  induction lines with
  | nil => exact isCent_zero
  | cons x xs ih =>
    have hx : cartSubtotal (x :: xs) = x.2.get_subtotal x.1 + cartSubtotal xs := by
      simp [cartSubtotal]
    rw [hx]
    exact (isCent_round2 _).add ih

theorem isCent_taxAmount (s : ℚ) : IsCent (taxAmount s) := isCent_round2 _

theorem isCent_shippingCost (s : ℚ) : IsCent (shippingCost s) := by
  unfold shippingCost
  split
  · exact isCent_zero
  · exact ⟨5000, by norm_num⟩

theorem round2_eq_self {q : ℚ} (h : IsCent q) : round2 q = q := by
  obtain ⟨n, rfl⟩ := h
  have h100 : ((n : ℚ) / 100) * 100 = (n : ℚ) := by field_simp
  rw [round2, h100, round_intCast]

theorem round2_nonneg {q : ℚ} (h : 0 ≤ q) : 0 ≤ round2 q := by
  have : (0 : ℤ) ≤ round (q * 100) := by
    rw [round_eq]
    have : (0 : ℚ) ≤ q * 100 + 1 / 2 := by positivity
    exact Int.floor_nonneg.mpr this
  unfold round2
  positivity

/-- The database state written by the commit on `checkout.py` line 95. -/
def commitDB (db : DB) (uid : Nat) (n payId : String)
    (lines : List (Product × CartLine)) : DB where
  products := db.products.map (fun q =>
    { q with stock_quantity := q.stock_quantity - cartQty (userLines db uid) q.id })
  cart_items := db.cart_items.filter (fun l => ¬ l.user_id = uid)
  orders := db.orders ++ [mkOrder n uid payId (cartSubtotal lines)
    (taxAmount (cartSubtotal lines)) (shippingCost (cartSubtotal lines))]
  order_items := db.order_items ++ lines.map (fun pl => mkOrderItem n pl.1 pl.2)

theorem checkout_eq_empty (db : DB) (uid : Nat) (fv : Bool) (y m d : Nat)
    (u p : List (Fin 16)) (i : Bool) (h : userLines db uid = []) :
    checkout db uid fv y m d u p i = (db, .emptyCartRedirect) := by
  simp [checkout, h]

theorem checkout_eq_internalError (db : DB) (uid : Nat) (fv : Bool) (y m d : Nat)
    (u p : List (Fin 16)) (i : Bool) (h1 : userLines db uid ≠ [])
    (h2 : resolveLines db (userLines db uid) = none) :
    checkout db uid fv y m d u p i = (db, .internalError) := by
  simp [checkout, List.isEmpty_iff, h1, h2]

theorem checkout_eq_renderPage (db : DB) (uid : Nat) (y m d : Nat)
    (u p : List (Fin 16)) (i : Bool) (h1 : userLines db uid ≠ [])
    (lines : List (Product × CartLine))
    (h2 : resolveLines db (userLines db uid) = some lines) :
    checkout db uid false y m d u p i = (db, .renderPage) := by
  simp [checkout, List.isEmpty_iff, h1, h2]

theorem checkout_eq_genericError (db : DB) (uid : Nat) (y m d : Nat)
    (u p : List (Fin 16)) (i : Bool) (h1 : userLines db uid ≠ [])
    (lines : List (Product × CartLine))
    (h2 : resolveLines db (userLines db uid) = some lines)
    (h3 : (i || db.orders.any (fun o => o.order_number = genOrderNumber y m d u)) = true) :
    checkout db uid true y m d u p i = (db, .genericError) := by
  simp only [checkout, List.isEmpty_iff]
  rw [if_neg (by simpa using h1), h2]
  simp only [if_pos h3, if_true]

theorem checkout_eq_commit (db : DB) (uid : Nat) (y m d : Nat)
    (u p : List (Fin 16)) (i : Bool) (h1 : userLines db uid ≠ [])
    (lines : List (Product × CartLine))
    (h2 : resolveLines db (userLines db uid) = some lines)
    (h3 : (i || db.orders.any (fun o => o.order_number = genOrderNumber y m d u)) = false) :
    checkout db uid true y m d u p i =
      (commitDB db uid (genOrderNumber y m d u) (genPaymentId p) lines,
       .success (genOrderNumber y m d u)) := by
  simp only [checkout, List.isEmpty_iff]
  rw [if_neg (by simpa using h1), h2]
  simp [h3, commitDB]

/-- Inversion of a successful checkout: success happens exactly in the commit
branch, so the resulting state is `commitDB`. -/
theorem checkout_success_inv {db : DB} {uid : Nat} {fv : Bool} {y m d : Nat}
    {u p : List (Fin 16)} {i : Bool} {n : String}
    (h : (checkout db uid fv y m d u p i).2 = .success n) :
    fv = true ∧ i = false ∧ n = genOrderNumber y m d u ∧
    resolveLines db (userLines db uid) = some (resolvedLines db uid) ∧
    (checkout db uid fv y m d u p i).1 =
      commitDB db uid n (genPaymentId p) (resolvedLines db uid) := by
  by_cases h1 : userLines db uid = []
  · rw [checkout_eq_empty db uid fv y m d u p i h1] at h
    exact absurd h (by simp)
  · rcases hres : resolveLines db (userLines db uid) with _ | lines
    · rw [checkout_eq_internalError db uid fv y m d u p i h1 hres] at h
      exact absurd h (by simp)
    · have hlines : resolvedLines db uid = lines := by
        simp [resolvedLines, hres]
      cases fv with
      | false =>
        rw [checkout_eq_renderPage db uid y m d u p i h1 lines hres] at h
        exact absurd h (by simp)
      | true =>
        by_cases h3 : (i || db.orders.any (fun o => o.order_number = genOrderNumber y m d u)) = true
        · rw [checkout_eq_genericError db uid y m d u p i h1 lines hres h3] at h
          exact absurd h (by simp)
        · have h3f : (i || db.orders.any (fun o => o.order_number = genOrderNumber y m d u)) = false := by
            simpa using h3
          have hc := checkout_eq_commit db uid y m d u p i h1 lines hres h3f
          rw [hc] at h ⊢
          simp only at h
          have hn : n = genOrderNumber y m d u := by
            cases h
            rfl
          have hi : i = false := (Bool.or_eq_false_iff.mp h3f).1
          subst hn
          refine ⟨rfl, hi, rfl, ?_, ?_⟩
          · rw [hlines]
          · rw [hlines]

theorem digitChar_isDigit {k : Nat} (h : k < 10) : (digitChar k).isDigit = true := by
  interval_cases k <;> decide

theorem pad4_isDigit (n : Nat) : ∀ c ∈ pad4 n, c.isDigit = true := by
  intro c hc
  simp only [pad4, List.mem_cons, List.not_mem_nil, or_false] at hc
  rcases hc with h | h | h | h <;> subst h <;>
    exact digitChar_isDigit (Nat.mod_lt _ (by norm_num))

theorem pad2_isDigit (n : Nat) : ∀ c ∈ pad2 n, c.isDigit = true := by
  intro c hc
  simp only [pad2, List.mem_cons, List.not_mem_nil, or_false] at hc
  rcases hc with h | h <;> subst h <;>
    exact digitChar_isDigit (Nat.mod_lt _ (by norm_num))

theorem hexChar_toUpper_isUpperHex (i : Fin 16) :
    ((hexChar i).toUpper.isDigit
      || ('A' ≤ (hexChar i).toUpper && (hexChar i).toUpper ≤ 'F')) = true := by
  fin_cases i <;> decide

/-! ## Concrete database states used as counterexamples and witnesses -/

/-- A fixed stream of random nibbles (one possible `uuid.uuid4().hex` prefix). -/
def exHexA : List (Fin 16) := [0, 1, 2, 3, 10, 11, 12, 13]

/-- A second, different stream of random nibbles. -/
def exHexB : List (Fin 16) := [4, 5, 6, 7, 14, 15, 0, 1]

/-- No products, no cart lines, no orders. -/
def emptyDB : DB := ⟨[], [], [], []⟩

/-- One active product (price 100, no discount, stock 5); user 1's cart asks for 2. -/
def oneDB : DB := ⟨[⟨1, 100, 0, 5, true⟩], [⟨1, 1, 2⟩], [], []⟩

/-- The spec's worked example: price 100, discount 10%, stock 5, quantity 2. -/
def exampleDB : DB := ⟨[⟨1, 100, 10, 5, true⟩], [⟨1, 1, 2⟩], [], []⟩

/-- Stock 1, but user 1's cart line asks for quantity 2. -/
def lowStockDB : DB := ⟨[⟨1, 100, 0, 1, true⟩], [⟨1, 1, 2⟩], [], []⟩

/-- Two products priced 1/250 (₹0.004), no discount; user 1 has one line of each. -/
def tinyPriceDB : DB :=
  ⟨[⟨1, 1/250, 0, 5, true⟩, ⟨2, 1/250, 0, 5, true⟩], [⟨1, 1, 1⟩, ⟨1, 2, 1⟩], [], []⟩

/-- One product with stock `S`; user 1 wants `q1` of it and user 2 wants `q2`. -/
def twoUserDB (S q1 q2 : Int) : DB :=
  ⟨[⟨1, 100, 0, S, true⟩], [⟨1, 1, q1⟩, ⟨2, 1, q2⟩], [], []⟩

/-- One INACTIVE product; user 1 has it in the cart (it was active when added). -/
def inactiveDB : DB := ⟨[⟨7, 100, 0, 5, false⟩], [⟨1, 7, 1⟩], [], []⟩

/-- An order whose `order_number` is exactly the candidate the next checkout
will generate from the nibble stream `exHexA` on 2025-10-12. -/
def collisionDB : DB :=
  ⟨[⟨1, 100, 0, 5, true⟩], [⟨1, 1, 1⟩],
   [mkOrder (genOrderNumber 2025 10 12 exHexA) 9 (genPaymentId exHexB) 100 5 50], []⟩

/-! ## Claims -/

/-- C1 counterexample: user 1's cart line asks for quantity 2 while the
product's `stock_quantity` is 1 and the product is active; the checkout does
NOT fail with `InsufficientStock` — it succeeds and leaves `stock_quantity`
at −1. -/
theorem checkout_no_stock_check_counterexample :
    lowStockDB.products.map (fun q => (q.stock_quantity, q.is_active)) = [(1, true)] ∧
    lowStockDB.cart_items.map (fun l => l.quantity) = [2] ∧
    (checkout lowStockDB 1 true 2025 10 12 exHexA exHexA false).2 =
      .success (genOrderNumber 2025 10 12 exHexA) ∧
    (checkout lowStockDB 1 true 2025 10 12 exHexA exHexA false).1.products.map
      (fun q => q.stock_quantity) = [-1] := by
  refine ⟨by simp [lowStockDB], by simp [lowStockDB], ?_, ?_⟩ <;>
    simp [checkout, lowStockDB, userLines, resolveLines, findProduct, cartQty]

/-- C1 (amended): the checkout view performs no stock check at all — a
successful checkout decrements each product's `stock_quantity` by exactly the
total quantity of the user's cart lines for it, unconditionally, even when that
quantity exceeds the available stock (so stock may become negative, as the
counterexample shows). -/
theorem checkout_decrements_stock_unconditionally
    (db : DB) (uid : Nat) (fv : Bool) (y m d : Nat) (u p : List (Fin 16))
    (i : Bool) (n : String)
    (h : (checkout db uid fv y m d u p i).2 = .success n) :
    (checkout db uid fv y m d u p i).1.products =
      db.products.map (fun q =>
        { q with stock_quantity := q.stock_quantity - cartQty (userLines db uid) q.id }) := by
  rw [(checkout_success_inv h).2.2.2.2]
  rfl

/-- C1 witness: the amended theorem applied to a concrete successful checkout. -/
theorem checkout_decrements_stock_unconditionally_witness :
    (checkout oneDB 1 true 2025 10 12 exHexA exHexA false).1.products =
      oneDB.products.map (fun q =>
        { q with stock_quantity := q.stock_quantity - cartQty (userLines oneDB 1) q.id }) :=
  checkout_decrements_stock_unconditionally oneDB 1 true 2025 10 12 exHexA exHexA false
    (genOrderNumber 2025 10 12 exHexA)
    (by simp [checkout, oneDB, userLines, resolveLines, findProduct])

/-- C2: atomicity — whenever the checkout does not succeed (empty cart, invalid
form, missing product, injected infrastructure failure, or order-number
collision), the resulting database state is exactly the pre-checkout state:
no Order, no OrderItem, no stock change, cart untouched. -/
theorem checkout_atomic
    (db : DB) (uid : Nat) (fv : Bool) (y m d : Nat) (u p : List (Fin 16)) (i : Bool)
    (h : ∀ n, (checkout db uid fv y m d u p i).2 ≠ .success n) :
    (checkout db uid fv y m d u p i).1 = db := by
  by_cases h1 : userLines db uid = []
  · rw [checkout_eq_empty db uid fv y m d u p i h1]
  · rcases hres : resolveLines db (userLines db uid) with _ | lines
    · rw [checkout_eq_internalError db uid fv y m d u p i h1 hres]
    · cases fv with
      | false => rw [checkout_eq_renderPage db uid y m d u p i h1 lines hres]
      | true =>
        by_cases h3 : (i || db.orders.any (fun o => o.order_number = genOrderNumber y m d u)) = true
        · rw [checkout_eq_genericError db uid y m d u p i h1 lines hres h3]
        · exfalso
          refine h (genOrderNumber y m d u) ?_
          rw [checkout_eq_commit db uid y m d u p i h1 lines hres (by simpa using h3)]

/-- C2 witness: a failing checkout (empty cart) leaves the state unchanged. -/
theorem checkout_atomic_witness :
    (checkout emptyDB 1 true 2025 10 12 exHexA exHexA false).1 = emptyDB :=
  checkout_atomic emptyDB 1 true 2025 10 12 exHexA exHexA false
    (by
      intro n hn
      rw [checkout_eq_empty emptyDB 1 true 2025 10 12 exHexA exHexA false rfl] at hn
      exact absurd hn (by simp))

/-- C6: the checkout fails with the empty-cart redirect exactly when the user
has no cart lines, and in that case nothing is written (no Order row). -/
theorem checkout_empty_cart_iff
    (db : DB) (uid : Nat) (fv : Bool) (y m d : Nat) (u p : List (Fin 16)) (i : Bool) :
    ((checkout db uid fv y m d u p i).2 = .emptyCartRedirect ↔ userLines db uid = []) ∧
    (userLines db uid = [] → checkout db uid fv y m d u p i = (db, .emptyCartRedirect)) := by
  constructor
  · constructor
    · intro h
      by_contra h1
      rcases hres : resolveLines db (userLines db uid) with _ | lines
      · rw [checkout_eq_internalError db uid fv y m d u p i h1 hres] at h
        exact absurd h (by simp)
      · cases fv with
        | false =>
          rw [checkout_eq_renderPage db uid y m d u p i h1 lines hres] at h
          exact absurd h (by simp)
        | true =>
          by_cases h3 : (i || db.orders.any (fun o => o.order_number = genOrderNumber y m d u)) = true
          · rw [checkout_eq_genericError db uid y m d u p i h1 lines hres h3] at h
            exact absurd h (by simp)
          · rw [checkout_eq_commit db uid y m d u p i h1 lines hres (by simpa using h3)] at h
            exact absurd h (by simp)
    · intro h
      rw [checkout_eq_empty db uid fv y m d u p i h]
  · intro h
    exact checkout_eq_empty db uid fv y m d u p i h

/-- C6 witness: on the empty database the checkout is the empty-cart redirect
with the state unchanged. -/
theorem checkout_empty_cart_iff_witness :
    checkout emptyDB 1 true 2025 10 12 exHexA exHexA false = (emptyDB, .emptyCartRedirect) :=
  (checkout_empty_cart_iff emptyDB 1 true 2025 10 12 exHexA exHexA false).2 rfl

/-- Modelled from the wording of claim C3 (the spec's Pricing Engine contract):
the subtotal as the SUM of price×quantity pairs rounded ONCE to 2 decimal
places — to be compared against the code, which rounds each line separately
and sums the rounded values. -/
def claimSubtotal (pairs : List (ℚ × Int)) : ℚ :=
  round2 ((pairs.map (fun pq => pq.1 * (pq.2 : ℚ))).sum)

/-- C3 counterexample: with two cart lines of discounted unit price 1/250
(₹0.004) and quantity 1 each, the checkout stores subtotal 0 (each line is
rounded to 0.00 before summing), while the claim's formula — the sum rounded
once — gives 0.01. -/
theorem checkout_pricing_counterexample :
    tinyPriceDB.products.map (fun q => q.get_discounted_price) = [1/250, 1/250] ∧
    ((checkout tinyPriceDB 1 true 2025 10 12 exHexA exHexA false).1.orders.map
      (fun o => o.subtotal)) = [0] ∧
    claimSubtotal [((1 : ℚ)/250, 1), ((1 : ℚ)/250, 1)] = 1/100 ∧
    (0 : ℚ) ≠ 1/100 := by
  refine ⟨?_, ?_, ?_, by norm_num⟩
  · simp [tinyPriceDB, Product.get_discounted_price]
  · simp [checkout, tinyPriceDB, userLines, resolveLines, findProduct, cartSubtotal,
      CartLine.get_subtotal, Product.get_discounted_price, mkOrder]
    norm_num [round2, round_eq]
  · norm_num [claimSubtotal, round2, round_eq]

/-- C3 (amended): a successful checkout appends exactly one Order whose
`subtotal` is the sum of the PER-LINE-rounded amounts
`round2(discounted_price × quantity)` (not the sum rounded once), whose
`tax_amount` is `round2(subtotal × 5%)`, whose `shipping_cost` is `0` if
`subtotal > 500` else `50`, and whose `total_amount` is their sum
(`mkOrder` stores `subtotal + tax + shipping`). -/
theorem checkout_pricing
    (db : DB) (uid : Nat) (fv : Bool) (y m d : Nat) (u p : List (Fin 16))
    (i : Bool) (n : String)
    (h : (checkout db uid fv y m d u p i).2 = .success n) :
    (checkout db uid fv y m d u p i).1.orders =
      db.orders ++ [mkOrder n uid (genPaymentId p)
        (cartSubtotal (resolvedLines db uid))
        (round2 (cartSubtotal (resolvedLines db uid) * (5 / 100)))
        (if cartSubtotal (resolvedLines db uid) > 500 then 0 else 50)] ∧
    cartSubtotal (resolvedLines db uid) =
      ((resolvedLines db uid).map
        (fun pl => round2 (pl.1.get_discounted_price * pl.2.quantity))).sum := by
  refine ⟨?_, ?_⟩
  · rw [(checkout_success_inv h).2.2.2.2]
    rfl
  · simp [cartSubtotal, CartLine.get_subtotal]

/-- C3 witness: the spec's worked example — price 100, discount 10%,
quantity 2 — priced through the amended theorem: subtotal 180, tax 9,
shipping 50, total 239. -/
theorem checkout_pricing_witness :
    ((checkout exampleDB 1 true 2025 10 12 exHexA exHexA false).1.orders.map
      (fun o => (o.subtotal, o.tax_amount, o.shipping_cost, o.total_amount)))
      = [(180, 9, 50, 239)] := by
  have h := checkout_pricing exampleDB 1 true 2025 10 12 exHexA exHexA false
    (genOrderNumber 2025 10 12 exHexA)
    (by simp [checkout, exampleDB, userLines, resolveLines, findProduct])
  rw [h.1]
  have hsub : cartSubtotal (resolvedLines exampleDB 1) = 180 := by
    simp [resolvedLines, resolveLines, userLines, findProduct, exampleDB, cartSubtotal,
      CartLine.get_subtotal, Product.get_discounted_price]
    norm_num [round2, round_eq]
  rw [hsub]
  simp [mkOrder, exampleDB]
  norm_num [round2, round_eq]

/-! ## A bit-faithful binary64 model for claim C5

The ℚ layer is exact arithmetic, under which every stored amount is a whole
number of hundredths and the C5 identity is automatic.  `checkout.py` computes
in binary64, where float addition drifts, so the identity must be judged
against IEEE-754 semantics.  All quantities involved are finite, nonnegative
and far from overflow/underflow, so a double is a dyadic `m · 2^e` with
`m = 0` or `2^52 ≤ m < 2^53`, and each arithmetic operation is
"round the exact result to the nearest representable, ties to even". -/

/-- A finite nonnegative binary64 value `m · 2^e`
(canonically `m = 0` or `2^52 ≤ m < 2^53`). -/
structure F where
  m : Nat
  e : Int
deriving DecidableEq, Repr

/-- Scale `a/b` (both positive) to `a'/b' · 2^e` with `2^52 ≤ a'/b' < 2^53`.
The fuel bounds the scaling loop; 400 covers every binade reachable here. -/
def normLoop : Nat → Nat → Nat → Int → Nat × Nat × Int
  | 0, a, b, e => (a, b, e)
  | fuel + 1, a, b, e =>
    if a < b * 4503599627370496 then normLoop fuel (a * 2) b (e - 1)
    else if b * 9007199254740992 ≤ a then normLoop fuel a (b * 2) (e + 1)
    else (a, b, e)

/-- The binary64 value nearest to `a/b` (ties to even): scale into the binade,
divide with remainder, round the quotient half-to-even, renormalize if the
mantissa overflowed to `2^53`. -/
def roundRat (a b : Nat) : F :=
  if a = 0 ∨ b = 0 then ⟨0, 0⟩
  else
    let n := normLoop 400 a b 0
    let q := n.1 / n.2.1
    let r := n.1 % n.2.1
    let m :=
      if n.2.1 < 2 * r then q + 1
      else if 2 * r < n.2.1 then q
      else if q % 2 = 0 then q else q + 1
    if m = 9007199254740992 then ⟨4503599627370496, n.2.2 + 53⟩ else ⟨m, n.2.2⟩

/-- IEEE-754 binary64 addition: the exact sum, correctly rounded.
(`int + float` in Python promotes the int exactly, so `0 + x = x` and
adding the integer shipping cost is the same operation.) -/
def fadd (x y : F) : F :=
  if x.m = 0 then y
  else if y.m = 0 then x
  else
    let e := if x.e ≤ y.e then x.e else y.e
    let a := x.m * 2 ^ (x.e - e).toNat + y.m * 2 ^ (y.e - e).toNat
    if 0 ≤ e then roundRat (a * 2 ^ e.toNat) 1
    else roundRat a (2 ^ (-e).toNat)

/-- IEEE-754 binary64 multiplication: the exact product, correctly rounded. -/
def fmul (x y : F) : F :=
  if x.m = 0 ∨ y.m = 0 then ⟨0, 0⟩
  else
    let a := x.m * y.m
    let e := x.e + y.e
    if 0 ≤ e then roundRat (a * 2 ^ e.toNat) 1
    else roundRat a (2 ^ (-e).toNat)

/-- CPython `round(x, 2)` on a float: round the EXACT value of `x` to 2
decimal places, half to even (CPython uses David Gay's correctly-rounded
conversion), then return the double nearest the resulting decimal. -/
def pyRound2 (x : F) : F :=
  if x.m = 0 then x
  else
    let n :=
      if 0 ≤ x.e then x.m * 100 * 2 ^ x.e.toNat
      else
        let b := 2 ^ (-x.e).toNat
        let q := x.m * 100 / b
        let r := x.m * 100 % b
        if b < 2 * r then q + 1
        else if 2 * r < b then q
        else if q % 2 = 0 then q else q + 1
    roundRat n 100

/-- Python `float > int` comparison (exact: both sides compared as rationals). -/
def fgt (x : F) (n : Nat) : Bool :=
  if 0 ≤ x.e then decide (n < x.m * 2 ^ x.e.toNat)
  else decide (n * 2 ^ (-x.e).toNat < x.m)

/-- The float `+0.0` (also the result of converting the int `0`). -/
def F.zero : F := ⟨0, 0⟩

/-- The double nearest 334.33: the stored `price` of the counterexample
product (`discount_percentage = 0`, so `get_discounted_price` returns it
untouched). -/
def fPrice : F := roundRat 33433 100

/-- The float promotion of the int quantity 2. -/
def fTwo : F := roundRat 2 1

/-- The double nearest 0.05 (`tax_rate`, line 28). -/
def f005 : F := roundRat 5 100

/-- The float promotion of the int flat shipping fee 50 (line 30). -/
def fFifty : F := roundRat 50 1

/-- `models.py` line 283 in binary64 for the one-line cart:
`round(self.product.get_discounted_price() * self.quantity, 2)`
with price 334.33, quantity 2. -/
def floatLineSub : F := pyRound2 (fmul fPrice fTwo)

/-- `checkout.py` line 27 in binary64: `sum(...)` starts from the int 0. -/
def floatSubtotal : F := fadd F.zero floatLineSub

/-- `checkout.py` line 29 in binary64: `round(subtotal * 0.05, 2)`. -/
def floatTax : F := pyRound2 (fmul floatSubtotal f005)

/-- `checkout.py` line 30 in binary64: `0 if subtotal > 500 else 50`. -/
def floatShipping : F := if fgt floatSubtotal 500 then F.zero else fFifty

/-- `checkout.py` line 31 in binary64:
`total_amount = subtotal + tax_amount + shipping_cost`. -/
def floatTotal : F := fadd (fadd floatSubtotal floatTax) floatShipping

/-- C5 counterexample, in the program's own binary64 arithmetic: a reachable
one-line cart — product price 334.33, no discount, quantity 2 — stores
`subtotal = 668.66` (> 500, so shipping is 0), `tax_amount = 33.43`, and
`total_amount = 668.66 ⊕ 33.43 ⊕ 0 = 702.0899999999999`, the double
`6175648949962014 · 2^(−43)`, one ulp BELOW the double nearest 702.09.
`round(subtotal + tax_amount + shipping_cost − discount_amount, 2)`
(subtracting the float `0.0` is exact) recomputes the same sum and rounds it
to `702.09 = 6175648949962015 · 2^(−43)`, so the claimed identity
`total_amount == round(subtotal + tax_amount + shipping_cost − discount_amount, 2)`
is FALSE on this order.  Every intermediate below equals the bit pattern
CPython produces for the corresponding expression in `checkout.py` lines 27–31. -/
theorem checkout_total_identity_counterexample :
    fPrice = ⟨5881595560229601, -44⟩ ∧
    floatSubtotal = ⟨5881595560229601, -43⟩ ∧
    fgt floatSubtotal 500 = true ∧
    floatTax = ⟨4704854235718615, -47⟩ ∧
    floatShipping = F.zero ∧
    floatTotal = ⟨6175648949962014, -43⟩ ∧
    pyRound2 floatTotal = ⟨6175648949962015, -43⟩ ∧
    floatTotal ≠ pyRound2 floatTotal := by
  decide

/-- C5 (amended): under EXACT rational arithmetic — the idealization of the
stored amounts in which rounding error does not accumulate — every Order
appended by a successful checkout satisfies
`total_amount = round2(subtotal + tax_amount + shipping_cost - discount_amount)`:
the stored amounts are then whole numbers of hundredths and the identity is
exact.  In the program's binary64 arithmetic the identity fails at reachable
carts (see `checkout_total_identity_counterexample`): float drift can leave
`total_amount` one ulp away from the rounded sum of its own components. -/
theorem checkout_total_identity
    (db : DB) (uid : Nat) (fv : Bool) (y m d : Nat) (u p : List (Fin 16))
    (i : Bool) (n : String)
    (h : (checkout db uid fv y m d u p i).2 = .success n) :
    ∀ o ∈ (checkout db uid fv y m d u p i).1.orders, o ∉ db.orders →
      o.total_amount =
        round2 (o.subtotal + o.tax_amount + o.shipping_cost - o.discount_amount) := by
  obtain ⟨-, -, -, -, hdb⟩ := checkout_success_inv h
  rw [hdb]
  intro o ho hno
  simp only [commitDB, List.mem_append, List.mem_singleton] at ho
  rcases ho with ho | ho
  · exact absurd ho hno
  · subst ho
    simp only [mkOrder, sub_zero]
    rw [round2_eq_self
      (((isCent_cartSubtotal _).add (isCent_taxAmount _)).add (isCent_shippingCost _))]

/-- C5 witness: the identity checked on the orders of a concrete successful
checkout. -/
theorem checkout_total_identity_witness :
    ((checkout oneDB 1 true 2025 10 12 exHexB exHexB false).1.orders.all
      (fun o => decide (o.total_amount =
        round2 (o.subtotal + o.tax_amount + o.shipping_cost - o.discount_amount)))) = true := by
  rw [List.all_eq_true]
  intro o ho
  rw [decide_eq_true_eq]
  exact checkout_total_identity oneDB 1 true 2025 10 12 exHexB exHexB false
    (genOrderNumber 2025 10 12 exHexB)
    (by simp [checkout, oneDB, userLines, resolveLines, findProduct])
    o ho (by simp [oneDB])

/-- The two concrete candidate order numbers differ (different random suffixes). -/
theorem genA_ne_genB :
    genOrderNumber 2025 10 12 exHexA ≠ genOrderNumber 2025 10 12 exHexB := by
  decide

/-- C4 counterexample: product stock 1; user 1 and user 2 each have a cart
line of quantity 1.  Running the two checkout requests one after the other
(a legal schedule of two concurrent attempts), BOTH succeed — the sum of
successful quantities is 2 > stock 1 — and the final stock is −1;
the claim says exactly one should succeed with `InsufficientStock` for the
other. -/
theorem checkout_non_oversell_counterexample :
    (twoUserDB 1 1 1).products.map (fun q => q.stock_quantity) = [1] ∧
    (checkout (twoUserDB 1 1 1) 1 true 2025 10 12 exHexA exHexA false).2 =
      .success (genOrderNumber 2025 10 12 exHexA) ∧
    (checkout (checkout (twoUserDB 1 1 1) 1 true 2025 10 12 exHexA exHexA false).1
        2 true 2025 10 12 exHexB exHexB false).2 =
      .success (genOrderNumber 2025 10 12 exHexB) ∧
    ((checkout (checkout (twoUserDB 1 1 1) 1 true 2025 10 12 exHexA exHexA false).1
        2 true 2025 10 12 exHexB exHexB false).1.products.map
      (fun q => q.stock_quantity)) = [-1] := by
  refine ⟨by simp [twoUserDB], ?_, ?_, ?_⟩ <;>
    simp [checkout, twoUserDB, userLines, resolveLines, findProduct, cartQty,
      commitDB, mkOrder, genA_ne_genB]

/-- C4 (amended): the code enforces no non-oversell bound at all — for a
product with ANY stock `S` and two users requesting `q1` and `q2`, both
checkout requests succeed and the final stock is `S − q1 − q2`, regardless of
whether `q1 + q2` exceeds `S`. -/
theorem checkout_oversells (S q1 q2 : Int) :
    (checkout (twoUserDB S q1 q2) 1 true 2025 10 12 exHexA exHexA false).2 =
      .success (genOrderNumber 2025 10 12 exHexA) ∧
    (checkout (checkout (twoUserDB S q1 q2) 1 true 2025 10 12 exHexA exHexA false).1
        2 true 2025 10 12 exHexB exHexB false).2 =
      .success (genOrderNumber 2025 10 12 exHexB) ∧
    ((checkout (checkout (twoUserDB S q1 q2) 1 true 2025 10 12 exHexA exHexA false).1
        2 true 2025 10 12 exHexB exHexB false).1.products.map
      (fun q => q.stock_quantity)) = [S - q1 - q2] := by
  refine ⟨?_, ?_, ?_⟩ <;>
    simp [checkout, twoUserDB, userLines, resolveLines, findProduct, cartQty,
      commitDB, mkOrder, genA_ne_genB]

/-- C7 counterexample: user 1's cart holds a product whose `is_active` is
false; the checkout does NOT fail with `ProductUnavailable` — it succeeds,
creates the order and decrements the stock. -/
theorem checkout_ignores_inactive_counterexample :
    inactiveDB.products.map (fun q => q.is_active) = [false] ∧
    (checkout inactiveDB 1 true 2025 10 12 exHexA exHexA false).2 =
      .success (genOrderNumber 2025 10 12 exHexA) ∧
    (checkout inactiveDB 1 true 2025 10 12 exHexA exHexA false).1.orders.length = 1 ∧
    (checkout inactiveDB 1 true 2025 10 12 exHexA exHexA false).1.products.map
      (fun q => q.stock_quantity) = [4] := by
  refine ⟨by simp [inactiveDB], ?_, ?_, ?_⟩ <;>
    simp [checkout, inactiveDB, userLines, resolveLines, findProduct, cartQty,
      commitDB]

/-- C7 (amended): the inactive-product guard lives in `add_to_cart`, not in
checkout — adding an inactive product to the cart fails with the
'Product is currently unavailable.' outcome and changes nothing, while the
checkout view itself never reads `is_active` and succeeds even when a cart
line's product has meanwhile been deactivated (see the counterexample). -/
theorem add_to_cart_inactive_unavailable
    (db : DB) (uid pid : Nat) (q : Int) (pr : Product)
    (hfind : findProduct db pid = some pr) (hact : pr.is_active = false) :
    add_to_cart db uid pid q = (db, .productUnavailable) := by
  simp [add_to_cart, hfind, hact]

/-- C7 witness: adding the inactive product of `inactiveDB` to a cart is
rejected with no state change. -/
theorem add_to_cart_inactive_unavailable_witness :
    add_to_cart inactiveDB 1 7 1 = (inactiveDB, .productUnavailable) :=
  add_to_cart_inactive_unavailable inactiveDB 1 7 1 ⟨7, 100, 0, 5, false⟩
    (by simp [findProduct, inactiveDB]) rfl

/-- C8 counterexample: the database already holds an order whose number equals
the single candidate the checkout generates; the checkout fails immediately
with the generic 'An error occurred' outcome and an unchanged state — there is
no retry with a fresh candidate and no `OrderNumberExhausted` error anywhere
in the code. -/
theorem checkout_first_collision_generic_counterexample :
    collisionDB.orders.map (fun o => o.order_number) =
      [genOrderNumber 2025 10 12 exHexA] ∧
    checkout collisionDB 1 true 2025 10 12 exHexA exHexA false =
      (collisionDB, .genericError) := by
  refine ⟨by simp [collisionDB, mkOrder], ?_⟩
  exact checkout_eq_genericError collisionDB 1 2025 10 12 exHexA exHexA false
    (by simp [userLines, collisionDB])
    [(⟨1, 100, 0, 5, true⟩, ⟨1, 1, 1⟩)]
    (by simp [resolveLines, userLines, collisionDB, findProduct])
    (by simp [collisionDB, mkOrder])

/-- C8 (amended): order-number generation happens exactly once per request
(line 48, before the try block); if that single candidate collides with an
existing `order_number`, the uniqueness violation raises at flush/commit and
the request ends in the generic rollback error with the state unchanged —
no bounded retry loop, no `OrderNumberExhausted`. -/
theorem checkout_collision_single_attempt
    (db : DB) (uid : Nat) (y m d : Nat) (u p : List (Fin 16))
    (h1 : userLines db uid ≠ [])
    (h2 : (resolveLines db (userLines db uid)).isSome = true)
    (hcol : db.orders.any (fun o => o.order_number = genOrderNumber y m d u) = true) :
    checkout db uid true y m d u p false = (db, .genericError) := by
  obtain ⟨lines, hl⟩ := Option.isSome_iff_exists.mp h2
  exact checkout_eq_genericError db uid y m d u p false h1 lines hl (by simp [hcol])

/-- C8 witness: the amended theorem applied to the concrete colliding state. -/
theorem checkout_collision_single_attempt_witness :
    checkout collisionDB 1 true 2025 10 12 exHexA exHexB false =
      (collisionDB, .genericError) :=
  checkout_collision_single_attempt collisionDB 1 2025 10 12 exHexA exHexB
    (by simp [userLines, collisionDB])
    (by simp [resolveLines, userLines, collisionDB, findProduct])
    (by simp [collisionDB, mkOrder])

/-- C9 counterexample: for a product with a 3-decimal price (₹12.344 = 1543/125)
and `discount_percentage = 0`, `get_discounted_price` returns the price
UNROUNDED (the rounding branch is only taken when `discount_percentage > 0`),
while the claim's formula `round(price × (1 − 0/100), 2)` gives ₹12.34. -/
theorem get_discounted_price_unrounded_counterexample :
    (Product.mk 9 (1543/125) 0 5 true).get_discounted_price = 1543/125 ∧
    round2 ((Product.mk 9 (1543/125) 0 5 true).price *
      (1 - (Product.mk 9 (1543/125) 0 5 true).discount_percentage / 100)) = 617/50 ∧
    (1543/125 : ℚ) ≠ 617/50 := by
  refine ⟨?_, ?_, by norm_num⟩
  · norm_num [Product.get_discounted_price]
  · norm_num [round2, round_eq]

/-- C9 (amended): the discounted unit price equals
`round2(price × (1 − discount/100))` only when `discount_percentage > 0`;
when `discount_percentage = 0` the raw price is returned without rounding.
In both cases the result is nonnegative for `price ≥ 0` and
`discount_percentage ∈ [0, 100]`. -/
theorem get_discounted_price_spec (pr : Product)
    (hp : 0 ≤ pr.price) (h0 : 0 ≤ pr.discount_percentage)
    (h100 : pr.discount_percentage ≤ 100) :
    0 ≤ pr.get_discounted_price ∧
    (0 < pr.discount_percentage →
      pr.get_discounted_price = round2 (pr.price * (1 - pr.discount_percentage / 100))) ∧
    (pr.discount_percentage ≤ 0 → pr.get_discounted_price = pr.price) := by
  unfold Product.get_discounted_price
  refine ⟨?_, ?_, ?_⟩
  · split
    · apply round2_nonneg
      apply mul_nonneg hp
      have hdiv : pr.discount_percentage / 100 ≤ 1 :=
        (div_le_one (by norm_num)).mpr h100
      linarith
    · exact hp
  · intro hd
    rw [if_pos hd]
  · intro hd
    rw [if_neg (not_lt.mpr hd)]

/-- C9 witness: the amended theorem at a concrete product
(price 100, discount 10%): discounted price 90 and nonnegative. -/
theorem get_discounted_price_spec_witness :
    (Product.mk 9 100 10 5 true).get_discounted_price = 90 ∧
    0 ≤ (Product.mk 9 100 10 5 true).get_discounted_price := by
  obtain ⟨h1, h2, -⟩ := get_discounted_price_spec (Product.mk 9 100 10 5 true)
    (by norm_num) (by norm_num) (by norm_num)
  refine ⟨?_, h1⟩
  rw [h2 (by norm_num)]
  norm_num [round2, round_eq]

/-- C10: every Order appended by a successful checkout has
`status = 'confirmed'` (in particular never 'pending'),
`payment_status = 'paid'` (the payment is the always-successful mock),
`discount_amount` left at the column default 0, and an order number of the
exact shape `ORD-` + 8 decimal digits (the `%Y%m%d` date stamp) + `-` +
8 uppercase hexadecimal characters.  The date-stamp hypotheses delimit the
range where the model's zero-padding matches `strftime`. -/
theorem checkout_order_confirmed_paid_shape
    (db : DB) (uid : Nat) (fv : Bool) (y m d : Nat) (u p : List (Fin 16))
    (i : Bool) (n : String)
    (hy : y ≤ 9999) (hm : m ≤ 99) (hd : d ≤ 99) (hu : 8 ≤ u.length)
    (h : (checkout db uid fv y m d u p i).2 = .success n) :
    ∀ o ∈ (checkout db uid fv y m d u p i).1.orders, o ∉ db.orders →
      o.status = "confirmed" ∧ o.status ≠ "pending" ∧
      o.payment_status = "paid" ∧ o.discount_amount = 0 ∧
      o.order_number =
        String.mk (['O', 'R', 'D', '-'] ++ (pad4 y ++ pad2 m ++ pad2 d) ++ ['-']
          ++ (u.take 8).map (fun j => (hexChar j).toUpper)) ∧
      (pad4 y ++ pad2 m ++ pad2 d).length = 8 ∧
      (∀ c ∈ pad4 y ++ pad2 m ++ pad2 d, c.isDigit = true) ∧
      ((u.take 8).map (fun j => (hexChar j).toUpper)).length = 8 ∧
      (∀ c ∈ (u.take 8).map (fun j => (hexChar j).toUpper),
        (c.isDigit || ('A' ≤ c && c ≤ 'F')) = true) := by
  obtain ⟨-, -, hn, -, hdb⟩ := checkout_success_inv h
  rw [hdb]
  intro o ho hno
  simp only [commitDB, List.mem_append, List.mem_singleton] at ho
  rcases ho with ho | ho
  · exact absurd ho hno
  · subst ho
    refine ⟨rfl, by simp [mkOrder], rfl, rfl, ?_, by simp [pad4, pad2], ?_, ?_, ?_⟩
    · simp [mkOrder, hn, genOrderNumber, List.append_assoc]
    · intro c hc
      simp only [List.mem_append] at hc
      rcases hc with (hc | hc) | hc
      · exact pad4_isDigit y c hc
      · exact pad2_isDigit m c hc
      · exact pad2_isDigit d c hc
    · simp only [List.length_map, List.length_take]
      omega
    · intro c hc
      simp only [List.mem_map] at hc
      obtain ⟨j, -, rfl⟩ := hc
      exact hexChar_toUpper_isUpperHex j

/-- C10 witness: the order created from `oneDB` checked for the constant
fields and the generated order number. -/
theorem checkout_order_confirmed_paid_shape_witness :
    ((checkout oneDB 1 true 2025 10 12 exHexA exHexA false).1.orders.all
      (fun o => o.status == "confirmed" && !(o.status == "pending")
        && o.payment_status == "paid" && decide (o.discount_amount = 0)
        && o.order_number == genOrderNumber 2025 10 12 exHexA)) = true := by
  have hsucc : (checkout oneDB 1 true 2025 10 12 exHexA exHexA false).2 =
      .success (genOrderNumber 2025 10 12 exHexA) := by
    simp [checkout, oneDB, userLines, resolveLines, findProduct]
  rw [List.all_eq_true]
  intro o ho
  obtain ⟨h1, -, h3, h4, h5, -⟩ :=
    checkout_order_confirmed_paid_shape oneDB 1 true 2025 10 12 exHexA exHexA false
      (genOrderNumber 2025 10 12 exHexA)
      (by norm_num) (by norm_num) (by norm_num) (by decide) hsucc
      o ho (by simp [oneDB])
  simp [h1, h3, h4, h5, genOrderNumber, List.append_assoc]

end ECommerce
